import Mathlib

/-!
Verification of the n8n workflow summarizer pipeline
(`src/workflow_summarizer_mcp.py`, function `summarize_workflow`).

The pipeline is shallowly embedded: JSON values are modelled by the inductive
type `J`, Python dicts by ordered association lists (`JObj`), and the two
network calls to the chat-completion API by an oracle
`complete : ChatRequest → Outcome` supplied as a parameter.  The filesystem
write is recorded in the run result instead of performed.  The wall-clock
timestamp read by the source is passed in as a parameter `timestamp`.

Modelling conventions, stated once here:
* Python dict insertion-order semantics are preserved: assignment to an
  existing key keeps its position, assignment to a fresh key appends,
  deletion keeps the order of the remaining keys.
* Code paths where the source would raise a dynamic type error on
  ill-typed documents (e.g. a non-list `"nodes"` value, a non-string
  `"type"` value, or a non-string prompt parameter) are given benign
  defaults; no theorem below is instantiated at such a document.
* `str.lower` is modelled by ASCII lowering (`Char.toLower`), which agrees
  with Python on every ASCII type string; all matched keywords are ASCII.
-/

/-- JSON values as decoded by `json.load` (numbers restricted to integers,
which is all the pipeline's own data ever contains). Objects are ordered
key/value lists, mirroring Python dict insertion order. -/
inductive J where
  | null : J
  | b : Bool → J
  | i : Int → J
  | s : String → J
  | a : List J → J
  | o : List (String × J) → J

/-- A decoded JSON object / Python dict. -/
abbrev JObj := List (String × J)

/-- `d[key]` / `key in d` lookup: first binding wins (JSON objects produced by
`json.load` have unique keys). -/
def jget : JObj → String → Option J
  | [], _ => none
  | (k, v) :: rest, key => if k = key then some v else jget rest key

/-- Python `d[key] = v`: replace in place if the key exists, else append. -/
def setKey : JObj → String → J → JObj
  | [], k, v => [(k, v)]
  | (k', v') :: rest, k, v =>
      if k' = k then (k, v) :: rest else (k', v') :: setKey rest k v

/-- Python `del d[key]` (for the unique-key dicts this pipeline handles):
drop the key's binding, keeping the order of the remaining bindings. -/
def removeKey : JObj → String → JObj
  | [], _ => []
  | (a, b) :: rest, k =>
      if a = k then removeKey rest k else (a, b) :: removeKey rest k

/-- `for key in keys: if key in d: del d[key]`. -/
def removeKeys (o : JObj) (ks : List String) : JObj :=
  ks.foldl removeKey o

/-! ### Substring matching (Python's `needle in haystack` on `str`) -/

/-- Does `n` match the leading characters of `h`? -/
def leadMatch : List Char → List Char → Bool
  | [], _ => true
  | _ :: _, [] => false
  | a :: as, b :: bs => if a = b then leadMatch as bs else false

/-- Does `n` occur as a contiguous run inside `h`? -/
def occursIn : List Char → List Char → Bool
  | n, [] => n.isEmpty
  | n, h :: t => leadMatch n (h :: t) || occursIn n t

/-- Python's `needle in hay` for strings. -/
def py_in (needle hay : String) : Bool := occursIn needle.data hay.data

/-- Python `s.lower()`, restricted to ASCII lowering. -/
def lower (s : String) : String := String.mk (s.data.map Char.toLower)

theorem leadMatch_iff (n h : List Char) :
    leadMatch n h = true ↔ ∃ r, h = n ++ r := by
  induction n generalizing h with
  | nil => simp [leadMatch]
  | cons a as ih =>
    cases h with
    | nil => simp [leadMatch]
    | cons b bs =>
      by_cases hab : a = b
      · subst hab
        simpa [leadMatch] using ih bs
      · have hba : ¬b = a := fun h' => hab h'.symm
        simp [leadMatch, hab, hba]

theorem occursIn_iff (n h : List Char) :
    occursIn n h = true ↔ ∃ l r, h = l ++ (n ++ r) := by
  induction h with
  | nil =>
    simp only [occursIn, List.isEmpty_iff]
    constructor
    · intro hn; exact ⟨[], [], by simp [hn]⟩
    · rintro ⟨l, r, he⟩
      rcases List.append_eq_nil.mp he.symm with ⟨rfl, h2⟩
      exact (List.append_eq_nil.mp h2).1
  | cons c t ih =>
    simp only [occursIn, Bool.or_eq_true, leadMatch_iff, ih]
    constructor
    · rintro (⟨r, hr⟩ | ⟨l, r, hr⟩)
      · exact ⟨[], r, by simp [hr]⟩
      · exact ⟨c :: l, r, by simp [hr]⟩
    · rintro ⟨l, r, hr⟩
      cases l with
      | nil => exact Or.inl ⟨r, by simpa using hr⟩
      | cons x xs =>
        right
        rcases List.cons_eq_cons.mp hr with ⟨rfl, ht⟩
        exact ⟨xs, r, ht⟩

theorem occursIn_self (n : List Char) : occursIn n n = true := by
  rw [occursIn_iff]; exact ⟨[], [], by simp⟩

theorem occursIn_append_left {n pre : List Char} (suf : List Char)
    (h : occursIn n pre = true) : occursIn n (pre ++ suf) = true := by
  rw [occursIn_iff] at h ⊢
  rcases h with ⟨l, r, rfl⟩
  exact ⟨l, r ++ suf, by simp⟩

theorem occursIn_append_right {n suf : List Char} (pre : List Char)
    (h : occursIn n suf = true) : occursIn n (pre ++ suf) = true := by
  rw [occursIn_iff] at h ⊢
  rcases h with ⟨l, r, rfl⟩
  exact ⟨pre ++ l, r, by simp⟩

theorem occursIn_trans {x y z : List Char}
    (hxy : occursIn x y = true) (hyz : occursIn y z = true) :
    occursIn x z = true := by
  rw [occursIn_iff] at hxy hyz ⊢
  rcases hxy with ⟨l1, r1, rfl⟩
  rcases hyz with ⟨l2, r2, rfl⟩
  exact ⟨l2 ++ l1, r1 ++ r2, by simp⟩

/-- `py_in` on an appended string, left part. -/
theorem py_in_append_left (n pre suf : String) (h : py_in n pre = true) :
    py_in n (pre ++ suf) = true := by
  simpa [py_in] using occursIn_append_left suf.data h

/-- `py_in` on an appended string, right part. -/
theorem py_in_append_right (n pre suf : String) (h : py_in n suf = true) :
    py_in n (pre ++ suf) = true := by
  simpa [py_in] using occursIn_append_right pre.data h

/-- Every string is a substring of itself. -/
theorem py_in_self (s : String) : py_in s s = true := occursIn_self s.data

/-! ### `json.dumps` with its default separators (`", "` / `": "`)

The source decides size reduction by `len(json.dumps(workflow_json)) // 4`,
so the serializer is embedded faithfully, including Python's default
`ensure_ascii=True` escaping (characters outside `0x20`–`0x7e`, plus `"`
and `\`, are escaped; astral characters use surrogate pairs; hex digits
are lower case). The serialization is produced as a `List Char` so that
its length (what the source measures) is directly accessible. -/

/-- Lower-case hexadecimal digit. -/
def hexDigit (n : Nat) : Char :=
  if n < 10 then Char.ofNat (48 + n) else Char.ofNat (87 + n)

/-- Four-digit hexadecimal rendering, as in Python's `\uXXXX` escapes. -/
def hex4 (n : Nat) : List Char :=
  [hexDigit (n / 4096 % 16), hexDigit (n / 256 % 16), hexDigit (n / 16 % 16), hexDigit (n % 16)]

/-- A `\uXXXX` escape sequence. -/
def uEsc (n : Nat) : List Char := '\\' :: 'u' :: hex4 n

/-- Escape one character the way `json.dumps` (with `ensure_ascii=True`) does. -/
def escChar (c : Char) : List Char :=
  if c = '"' then ['\\', '"']
  else if c = '\\' then ['\\', '\\']
  else if c = Char.ofNat 10 then ['\\', 'n']
  else if c = Char.ofNat 13 then ['\\', 'r']
  else if c = Char.ofNat 9 then ['\\', 't']
  else if c = Char.ofNat 8 then ['\\', 'b']
  else if c = Char.ofNat 12 then ['\\', 'f']
  else if 0x20 ≤ c.toNat ∧ c.toNat ≤ 0x7e then [c]
  else if c.toNat ≤ 0xffff then uEsc c.toNat
  else uEsc (0xd800 + (c.toNat - 0x10000) / 0x400) ++ uEsc (0xdc00 + (c.toNat - 0x10000) % 0x400)

/-- Escape a character sequence. -/
def escList : List Char → List Char
  | [] => []
  | c :: t => escChar c ++ escList t

/-- A JSON string literal: `"…"` with escaped contents. -/
def dstr (s : String) : List Char := '"' :: (escList s.data ++ ['"'])

mutual

/-- `json.dumps(value)` with Python's default separators. -/
def dumpsL : J → List Char
  | J.null => "null".data
  | J.b true => "true".data
  | J.b false => "false".data
  | J.i n => (toString n).data
  | J.s s => dstr s
  | J.a xs => '[' :: (dumpsArr xs ++ [']'])
  | J.o kvs => Char.ofNat 123 :: (dumpsObjL kvs ++ [Char.ofNat 125])

/-- Array elements joined by `", "`. -/
def dumpsArr : List J → List Char
  | [] => []
  | [x] => dumpsL x
  | x :: y :: xs => dumpsL x ++ (", ".data ++ dumpsArr (y :: xs))

/-- Object entries `"key": value` joined by `", "`. -/
def dumpsObjL : List (String × J) → List Char
  | [] => []
  | [(k, v)] => dstr k ++ (": ".data ++ dumpsL v)
  | (k, v) :: p :: xs => dstr k ++ (": ".data ++ dumpsL v) ++ (", ".data ++ dumpsObjL (p :: xs))

end

/-! ### Pipeline components (`summarize_workflow`, lines 52–105 and 130–171) -/

/-- The fields of a node when the node is a JSON object (every node handled by
the source is; a non-object node would raise in Python and is not modelled). -/
def asObj : J → JObj
  | J.o kvs => kvs
  | _ => []

/-- `node.get(key)`. -/
def node_get (n : J) (key : String) : Option J := jget (asObj n) key

/-- `workflow_json.get("nodes", [])` (line 57); a present non-list value is a
dynamic type error in the source and is not modelled. -/
def nodesOf (doc : JObj) : List J :=
  match jget doc "nodes" with
  | some (J.a xs) => xs
  | _ => []

/-- `workflow_json.get("name", "Untitled Workflow")` (line 52). -/
def workflow_title (doc : JObj) : J :=
  (jget doc "name").getD (J.s "Untitled Workflow")

/-- `node.get("type", "unknown")` (line 65); a present non-string value would
make the later `.lower()` calls raise and is not modelled. -/
def node_type (n : J) : String :=
  match node_get n "type" with
  | some (J.s s) => s
  | some _ => "unknown"
  | none => "unknown"

/-- `node.get("type", "")` as used by the prompt extractor (line 91). -/
def node_type_or_empty (n : J) : String :=
  match node_get n "type" with
  | some (J.s s) => s
  | some _ => ""
  | none => ""

/-- `node.get("parameters", {})` (lines 92 and 148); a present non-dict value
is a dynamic type error in the source and is not modelled. -/
def node_params (n : J) : JObj :=
  match node_get n "parameters" with
  | some (J.o kvs) => kvs
  | _ => []

/-- `parameters.get(key, "")` for the two prompt fields (lines 93–94);
non-string prompt values are not modelled (the tool's documents carry
string prompts). -/
def param_str (params : JObj) (key : String) : String :=
  match jget params key with
  | some (J.s s) => s
  | _ => ""

/-- One step of `node_types[t] = node_types.get(t, 0) + 1` (line 66): an
existing bucket is incremented in place, a fresh type is appended. -/
def bump : List (String × Nat) → String → List (String × Nat)
  | [], ty => [(ty, 1)]
  | (k, c) :: rest, ty =>
      if k = ty then (k, c + 1) :: rest else (k, c) :: bump rest ty

/-- The node-type histogram built by the loop at lines 63–66. -/
def node_types_hist (nodes : List J) : List (String × Nat) :=
  nodes.foldl (fun h n => bump h (node_type n)) []

/-- The AI-keyword test of lines 72–76. -/
def is_ai_type (t : String) : Bool :=
  py_in "openai" (lower t) || py_in "ai" (lower t) ||
  py_in "gpt" (lower t) || py_in "llm" (lower t) ||
  py_in "agent" (lower t) || py_in "anthropic" (lower t) ||
  py_in "langchain" (lower t)

/-- The database-keyword test of lines 78–81. -/
def is_db_type (t : String) : Bool :=
  py_in "postgres" (lower t) || py_in "mysql" (lower t) ||
  py_in "database" (lower t) || py_in "sql" (lower t) ||
  py_in "mongo" (lower t) || py_in "supabase" (lower t)

/-- `ai_nodes = sum(count for type_, count in node_types.items() if …)`
(lines 72–76). -/
def ai_nodes (hist : List (String × Nat)) : Nat :=
  ((hist.filter (fun p => is_ai_type p.1)).map (fun p => p.2)).sum

/-- `db_nodes = sum(count for type_, count in node_types.items() if …)`
(lines 78–81). -/
def db_nodes (hist : List (String × Nat)) : Nat :=
  ((hist.filter (fun p => is_db_type p.1)).map (fun p => p.2)).sum

/-- The node filter of the prompt extractor (line 91). -/
def is_agent_node (n : J) : Bool :=
  py_in "agent" (lower (node_type_or_empty n)) ||
  py_in "openai" (lower (node_type_or_empty n))

/-- The prompt-extraction loop of lines 87–99, returning
`(system_prompts, user_prompts)` in traversal order. -/
def extract_prompts : List J → List String × List String
  | [] => ([], [])
  | n :: rest =>
    let acc := extract_prompts rest
    if is_agent_node n then
      let sp := param_str (node_params n) "systemPrompt"
      let up := param_str (node_params n) "text"
      ((if sp ≠ "" ∧ 10 < sp.length then sp :: acc.1 else acc.1),
       (if up ≠ "" ∧ 10 < up.length then up :: acc.2 else acc.2))
    else acc

/-- `important_params` (line 149). -/
def important_params : List String :=
  ["text", "systemPrompt", "operation", "table", "query"]

/-- The parameter-whitelisting loop of lines 150–152: iterate the whitelist
in order, copying each key that exists in the node's parameters. -/
def filter_params_aux (params : JObj) : List String → JObj
  | [] => []
  | k :: ks =>
    match jget params k with
    | some v => (k, v) :: filter_params_aux params ks
    | none => filter_params_aux params ks

/-- Parameters restricted to `important_params`. -/
def filter_params (params : JObj) : JObj :=
  filter_params_aux params important_params

/-- The per-node reduction of lines 140–154. -/
def simplify_node (n : J) : J :=
  J.o [("name", (node_get n "name").getD (J.s "")),
       ("type", (node_get n "type").getD (J.s "")),
       ("parameters", J.o (filter_params (node_params n))),
       ("position", (node_get n "position").getD (J.a []))]

/-- `keys_to_remove` (line 159). -/
def keys_to_remove : List String :=
  ["pinData", "connections", "settings", "staticData"]

/-- The whole-document reduction of lines 138–162: replace the node list by
the reduced nodes, then drop the four unnecessary top-level keys. -/
def simplify_workflow (doc : JObj) : JObj :=
  removeKeys (setKey doc "nodes" (J.a ((nodesOf doc).map simplify_node))) keys_to_remove

/-- `estimated_tokens = len(json.dumps(workflow_json)) // 4` (lines 120–126). -/
def estimated_tokens (doc : JObj) : Nat :=
  (dumpsL (J.o doc)).length / 4

/-- The document that reaches the prompt builder: the value of the variable
`workflow_json` after lines 130–171 (reduced exactly when the estimate is
strictly above 12000; otherwise the original document). This is also the
value held by `simplified_workflow` at the fallback site (line 260), since
without reduction that variable is only a shallow copy of the original. -/
def doc_used (doc : JObj) : JObj :=
  if 12000 < estimated_tokens doc then simplify_workflow doc else doc

/-! ### Paths (`pathlib.PurePath.name` / `.stem`, used at lines 233 and 296) -/

/-- Split a character sequence at `'/'`, keeping empty pieces, as
`str.split("/")` would. -/
def splitSlash : List Char → List (List Char)
  | [] => [[]]
  | c :: rest =>
    let r := splitSlash rest
    if c = '/' then [] :: r
    else (c :: r.headD []) :: r.tail

/-- Join components with `'/'`. -/
def joinSlash : List (List Char) → List Char
  | [] => []
  | [x] => x
  | x :: y :: xs => x ++ '/' :: joinSlash (y :: xs)

/-- `Path(p).name`: the last non-empty `/`-separated component. -/
def path_name (p : String) : String :=
  String.mk (((splitSlash p.data).filter (fun c => c ≠ [])).getLastD [])

/-- Index of the last `'.'` in a character list, if any. -/
def lastDotIndex : List Char → Option Nat
  | [] => none
  | c :: rest =>
    match lastDotIndex rest with
    | some i => some (i + 1)
    | none => if c = '.' then some 0 else none

/-- `Path(p).stem`: the name without its suffix; pathlib keeps the whole name
when the last dot is leading or trailing. -/
def path_stem (p : String) : String :=
  let nm := path_name p
  match lastDotIndex nm.data with
  | some i => if 0 < i ∧ i < nm.length - 1 then String.mk (nm.data.take i) else nm
  | none => nm

/-- `Path(p).parent` rendered as a string, for relative slash-separated paths
without trailing slashes (all that is needed here): the components before the
last one, or `"."` when there are none. This is the claim-side notion used to
express "the output file is a sibling of the input file". -/
def parent_dir (p : String) : String :=
  match (splitSlash p.data).dropLast with
  | [] => "."
  | ps => String.mk (joinSlash ps)

/-- `output_path = Path(workflow_path).stem + "_summary.md"` (lines 233/296). -/
def output_path (workflow_path : String) : String :=
  path_stem workflow_path ++ "_summary.md"

/-! ### The completion client and the whole operation (lines 104–312) -/

/-- The information the source embeds in a chat prompt, kept structurally.
`full` mirrors the primary template (lines 174–197): title, node count,
histogram, AI/DB counts, the two prompt sequences, the (possibly reduced)
document, and the timestamp. `brief` mirrors the fallback template
(lines 264–279): title, node count, histogram, the super-simplified payload,
and the timestamp. -/
inductive PromptContent where
  | full (title : J) (node_count : Nat) (node_types : List (String × Nat))
      (ai_count db_count : Nat)
      (system_prompts user_prompts : List String)
      (payload : J) (timestamp : String)
  | brief (title : J) (node_count : Nat) (node_types : List (String × Nat))
      (payload : J) (timestamp : String)

/-- The document serialized into the prompt. -/
def PromptContent.payload : PromptContent → J
  | .full _ _ _ _ _ _ _ p _ => p
  | .brief _ _ _ p _ => p

/-- The histogram embedded in the prompt. -/
def PromptContent.hist : PromptContent → List (String × Nat)
  | .full _ _ h _ _ _ _ _ _ => h
  | .brief _ _ h _ _ => h

/-- The same content with the timestamp blanked, for determinism statements. -/
def PromptContent.drop_ts : PromptContent → PromptContent
  | .full a b c d e f g h _ => .full a b c d e f g h ""
  | .brief a b c d _ => .brief a b c d ""

/-- One `client.chat.completions.create(...)` call: the model name, the
structured prompt content, which token-limit parameter name is used
(lines 210–224), and whether a sampling temperature is passed. -/
structure ChatRequest where
  model : String
  content : PromptContent
  maxTokensKey : String
  hasTemperature : Bool

/-- The outcome of one completion call: the first choice's message content,
or the text of the raised exception. -/
inductive Outcome where
  | success (text : String)
  | failure (msg : String)

/-- How the Python call terminates: a returned string, or an uncaught
exception with the given message. -/
inductive PyResult where
  | returned (text : String)
  | raised (msg : String)

/-- Discriminator for `PyResult.raised`. -/
def PyResult.isRaised : PyResult → Bool
  | .returned _ => false
  | .raised _ => true

/-- Everything observable about one invocation: how it terminated, the file
write it performed (path and exact content), and the completion calls it
issued, in order. -/
structure RunResult where
  result : PyResult
  written : Option (String × String)
  attempts : List ChatRequest

/-- The primary completion request (lines 173–224): the prompt embeds the
statistics computed from the *original* document and the possibly reduced
document; the model `"o1"` uses `max_completion_tokens` and no temperature,
every other model the standard shape. -/
def primary_request (doc : JObj) (model timestamp : String) : ChatRequest :=
  { model := model,
    content := PromptContent.full (workflow_title doc) (nodesOf doc).length
      (node_types_hist (nodesOf doc))
      (ai_nodes (node_types_hist (nodesOf doc)))
      (db_nodes (node_types_hist (nodesOf doc)))
      (extract_prompts (nodesOf doc)).1 (extract_prompts (nodesOf doc)).2
      (J.o (doc_used doc)) timestamp,
    maxTokensKey := if model = "o1" then "max_completion_tokens" else "max_tokens",
    hasTemperature := if model = "o1" then false else true }

/-- `super_simplified` (lines 256–261): top-level stats plus the first
`min(20, len(...))` entries of `simplified_workflow`'s node list — which is
the reduced list only when the size branch ran, and the original node list
otherwise. -/
def super_simplified (doc : JObj) : JObj :=
  [("name", workflow_title doc),
   ("node_count", J.i (Int.ofNat (nodesOf doc).length)),
   ("node_types", J.o ((node_types_hist (nodesOf doc)).map
      (fun p => (p.1, J.i (Int.ofNat p.2))))),
   ("nodes", J.a ((nodesOf (doc_used doc)).take
      (min 20 (nodesOf (doc_used doc)).length)))]

/-- The fallback completion request (lines 264–287): fixed model
`"gpt-3.5-turbo-16k"`, shorter template, standard parameter shape. -/
def fallback_request (doc : JObj) (timestamp : String) : ChatRequest :=
  { model := "gpt-3.5-turbo-16k",
    content := PromptContent.brief (workflow_title doc) (nodesOf doc).length
      (node_types_hist (nodesOf doc)) (J.o (super_simplified doc)) timestamp,
    maxTokensKey := "max_tokens",
    hasTemperature := true }

/-- The node list of a request's payload document. -/
def payload_nodes (r : ChatRequest) : List J :=
  nodesOf (asObj r.content.payload)

/-- The whole `summarize_workflow` operation (lines 24–312), from the already
parsed load result onward. `load` is the outcome of lines 39–46 (an
exception there propagates), `api_key` is `os.environ.get("OPENAI_API_KEY")`,
`complete` is the completion API, and `timestamp` the formatted value of
`datetime.datetime.now()` (line 105). -/
def summarize_workflow (load : Except String JObj) (workflow_path model : String)
    (api_key : Option String) (complete : ChatRequest → Outcome)
    (timestamp : String) : RunResult :=
  match load with
  | .error e => { result := .raised e, written := none, attempts := [] }
  | .ok doc =>
    match api_key with
    | none =>
      { result := .returned "OPENAI_API_KEY environment variable not set",
        written := none, attempts := [] }
    | some _ =>
      let preq := primary_request doc model timestamp
      match complete preq with
      | .success summary =>
        { result := .returned summary,
          written := some (output_path workflow_path, summary),
          attempts := [preq] }
      | .failure e =>
        if model = "gpt-3.5-turbo-16k" then
          { result := .returned ("Error calling OpenAI API: " ++ e),
            written := none, attempts := [preq] }
        else
          let freq := fallback_request doc timestamp
          match complete freq with
          | .success summary =>
            { result := .returned summary,
              written := some (output_path workflow_path, summary),
              attempts := [preq, freq] }
          | .failure fe =>
            { result := .returned ("Error with fallback model: " ++ fe),
              written := none, attempts := [preq, freq] }

/-! ### Lookup lemmas for the dictionary operations -/

theorem jget_setKey (o : JObj) (k' : String) (v : J) (key : String) :
    jget (setKey o k' v) key = if key = k' then some v else jget o key := by
  induction o with
  | nil =>
    by_cases h : key = k'
    · simp [setKey, jget, h]
    · have h2 : ¬k' = key := fun hx => h hx.symm
      simp [setKey, jget, h, h2]
  | cons p rest ih =>
    obtain ⟨a, b⟩ := p
    by_cases hak : a = k'
    · subst hak
      by_cases hk : key = a
      · subst hk; simp [setKey, jget]
      · have h2 : ¬a = key := fun hx => hk hx.symm
        simp [setKey, jget, hk, h2]
    · by_cases hk : a = key
      · subst hk
        simp [setKey, jget, hak]
      · simp [setKey, jget, hak, hk, ih]

theorem jget_removeKey (o : JObj) (k' key : String) :
    jget (removeKey o k') key = if key = k' then none else jget o key := by
  induction o with
  | nil => simp [removeKey, jget]
  | cons p rest ih =>
    obtain ⟨a, b⟩ := p
    by_cases hak : a = k'
    · subst hak
      by_cases hk : key = a
      · subst hk; simp [removeKey, jget, ih]
      · have h2 : ¬a = key := fun hx => hk hx.symm
        simp [removeKey, jget, hk, h2, ih]
    · by_cases hk : a = key
      · subst hk
        simp [removeKey, jget, hak]
      · simp [removeKey, jget, hak, hk, ih]

theorem jget_removeKeys (ks : List String) (o : JObj) (key : String) :
    jget (removeKeys o ks) key = if key ∈ ks then none else jget o key := by
  induction ks generalizing o with
  | nil => simp [removeKeys]
  | cons k ks ih =>
    have hstep : removeKeys o (k :: ks) = removeKeys (removeKey o k) ks := rfl
    rw [hstep, ih, jget_removeKey]
    by_cases hk : key = k
    · simp [hk]
    · by_cases hmem : key ∈ ks <;> simp [hk, hmem]

theorem jget_filter_params_aux (params : JObj) (ks : List String) (key : String) :
    jget (filter_params_aux params ks) key =
      if key ∈ ks then jget params key else none := by
  induction ks with
  | nil => simp [filter_params_aux, jget]
  | cons k ks ih =>
    by_cases hk : key = k
    · subst hk
      cases hp : jget params key with
      | none =>
        simp only [filter_params_aux, hp, ih, List.mem_cons, true_or, if_pos]
        by_cases hmem : key ∈ ks <;> simp [hmem, hp]
      | some v => simp [filter_params_aux, hp, jget]
    · have hk2 : ¬k = key := fun hx => hk hx.symm
      cases hp : jget params k with
      | none => simp [filter_params_aux, hp, ih, hk]
      | some v => simp [filter_params_aux, hp, ih, hk, hk2, jget]

/-- Value-level description of the parameter whitelist filter. -/
theorem jget_filter_params (params : JObj) (key : String) :
    jget (filter_params params) key =
      if key ∈ important_params then jget params key else none :=
  jget_filter_params_aux params important_params key

/-- Inside the reduced document, `"nodes"` holds exactly the reduced nodes. -/
theorem jget_simplify_nodes (doc : JObj) :
    jget (simplify_workflow doc) "nodes" =
      some (J.a ((nodesOf doc).map simplify_node)) := by
  unfold simplify_workflow
  rw [jget_removeKeys, jget_setKey]
  simp [keys_to_remove]

/-- The reduced document's node list is the reduced original node list. -/
theorem nodesOf_simplify_workflow (doc : JObj) :
    nodesOf (simplify_workflow doc) = (nodesOf doc).map simplify_node := by
  have h := jget_simplify_nodes doc
  unfold nodesOf
  rw [h]
  rfl

/-! ### Classification keyword redundancy (claim C10) -/

/-- Claim-side AI test with the keyword `"openai"` removed. -/
def is_ai_type_small (t : String) : Bool :=
  py_in "ai" (lower t) || py_in "gpt" (lower t) || py_in "llm" (lower t) ||
  py_in "agent" (lower t) || py_in "anthropic" (lower t) || py_in "langchain" (lower t)

/-- Claim-side database test with the keyword `"mysql"` removed. -/
def is_db_type_small (t : String) : Bool :=
  py_in "postgres" (lower t) || py_in "database" (lower t) || py_in "sql" (lower t) ||
  py_in "mongo" (lower t) || py_in "supabase" (lower t)

/-- AI count over the smaller keyword set. -/
def ai_nodes_small (hist : List (String × Nat)) : Nat :=
  ((hist.filter (fun p => is_ai_type_small p.1)).map (fun p => p.2)).sum

/-- Database count over the smaller keyword set. -/
def db_nodes_small (hist : List (String × Nat)) : Nat :=
  ((hist.filter (fun p => is_db_type_small p.1)).map (fun p => p.2)).sum

theorem is_ai_type_eq_small (t : String) : is_ai_type t = is_ai_type_small t := by
  unfold is_ai_type is_ai_type_small
  cases hop : py_in "openai" (lower t) with
  | false => simp [hop]
  | true =>
    have hai : py_in "ai" (lower t) = true :=
      occursIn_trans (by decide) hop
    simp [hop, hai]

theorem is_db_type_eq_small (t : String) : is_db_type t = is_db_type_small t := by
  unfold is_db_type is_db_type_small
  cases hmy : py_in "mysql" (lower t) with
  | false => simp [hmy]
  | true =>
    have hsql : py_in "sql" (lower t) = true :=
      occursIn_trans (by decide) hmy
    simp [hmy, hsql]

/-- C10: for every workflow document, the AI count computed with the full
keyword set equals the AI count computed with the set lacking `"openai"`
(every type string containing `"openai"` contains `"ai"`), and the database
count computed with the full set equals the count computed with the set
lacking `"mysql"` (every type string containing `"mysql"` contains `"sql"`). -/
theorem C10_keyword_redundancy (doc : JObj) :
    ai_nodes (node_types_hist (nodesOf doc)) =
      ai_nodes_small (node_types_hist (nodesOf doc))
    ∧ db_nodes (node_types_hist (nodesOf doc)) =
      db_nodes_small (node_types_hist (nodesOf doc)) := by
  constructor
  · unfold ai_nodes ai_nodes_small
    rw [List.filter_congr (fun p _ => by rw [is_ai_type_eq_small])]
  · unfold db_nodes db_nodes_small
    rw [List.filter_congr (fun p _ => by rw [is_db_type_eq_small])]

/-! ### Classification counts (claim C3) -/

/-- C3: for every workflow document the AI count is the sum of the histogram
bucket counts whose type string matches an AI keyword and the database count
the analogous sum; a document matching no keyword of either set yields
counts `(0, 0)`; and each bucket contributes its count to a category total
exactly once, however many of that category's keywords its type string
contains. -/
theorem C3_classification_counts (doc : JObj) :
    (ai_nodes (node_types_hist (nodesOf doc)) =
        (((node_types_hist (nodesOf doc)).filter
            (fun p => is_ai_type p.1)).map (fun p => p.2)).sum
      ∧ db_nodes (node_types_hist (nodesOf doc)) =
        (((node_types_hist (nodesOf doc)).filter
            (fun p => is_db_type p.1)).map (fun p => p.2)).sum)
    ∧ ((∀ p ∈ node_types_hist (nodesOf doc),
          is_ai_type p.1 = false ∧ is_db_type p.1 = false) →
        ai_nodes (node_types_hist (nodesOf doc)) = 0
          ∧ db_nodes (node_types_hist (nodesOf doc)) = 0)
    ∧ (∀ ty c rest, ai_nodes ((ty, c) :: rest) =
        (if is_ai_type ty = true then c else 0) + ai_nodes rest)
    ∧ (∀ ty c rest, db_nodes ((ty, c) :: rest) =
        (if is_db_type ty = true then c else 0) + db_nodes rest) := by
  refine ⟨⟨rfl, rfl⟩, ?_, ?_, ?_⟩
  · intro hall
    constructor
    · unfold ai_nodes
      rw [List.filter_eq_nil_iff.mpr (fun p hp => by simp [(hall p hp).1])]
      rfl
    · unfold db_nodes
      rw [List.filter_eq_nil_iff.mpr (fun p hp => by simp [(hall p hp).2])]
      rfl
  · intro ty c rest
    by_cases h : is_ai_type ty = true
    · simp [ai_nodes, h]
    · simp [ai_nodes, h]
  · intro ty c rest
    by_cases h : is_db_type ty = true
    · simp [db_nodes, h]
    · simp [db_nodes, h]

/-- Witness for C3: the spec's end-to-end scenario 1, a single
`n8n-nodes-base.httpRequest` node, yields counts `(0, 0)`. -/
theorem C3_classification_counts_witness :
    ai_nodes (node_types_hist (nodesOf
        [("name", J.s "Demo"),
         ("nodes", J.a [J.o [("type", J.s "n8n-nodes-base.httpRequest"),
                             ("parameters", J.o [])]])])) = 0
    ∧ db_nodes (node_types_hist (nodesOf
        [("name", J.s "Demo"),
         ("nodes", J.a [J.o [("type", J.s "n8n-nodes-base.httpRequest"),
                             ("parameters", J.o [])]])])) = 0 :=
  (C3_classification_counts _).2.1 (by decide)

/-! ### Prompt extraction (claim C4) -/

/-- C4: the prompt extractor inspects exactly the nodes whose type string
contains `"agent"` or `"openai"` (case-insensitively); it keeps a node's
`systemPrompt` value in the system sequence and its `text` value in the user
sequence exactly when the value is longer than 10 characters (which already
entails Python truthiness, so values of length 10 or shorter are ignored);
and both sequences arise by a filter–map over the node list, hence preserve
traversal order and perform no deduplication. -/
theorem C4_prompt_extraction (nodes : List J) :
    (extract_prompts nodes).1 =
      (nodes.filter is_agent_node).filterMap (fun n =>
        if 10 < (param_str (node_params n) "systemPrompt").length
        then some (param_str (node_params n) "systemPrompt") else none)
    ∧ (extract_prompts nodes).2 =
      (nodes.filter is_agent_node).filterMap (fun n =>
        if 10 < (param_str (node_params n) "text").length
        then some (param_str (node_params n) "text") else none) := by
  induction nodes with
  | nil => exact ⟨rfl, rfl⟩
  | cons n rest ih =>
    obtain ⟨ih1, ih2⟩ := ih
    by_cases ha : is_agent_node n = true
    · constructor
      · by_cases hl : 10 < (param_str (node_params n) "systemPrompt").length
        · have hne : param_str (node_params n) "systemPrompt" ≠ "" := by
            intro he
            rw [he] at hl
            simp at hl
          simp [extract_prompts, ha, hl, hne, ih1]
        · simp [extract_prompts, ha, hl, ih1]
      · by_cases hl : 10 < (param_str (node_params n) "text").length
        · have hne : param_str (node_params n) "text" ≠ "" := by
            intro he
            rw [he] at hl
            simp at hl
          simp [extract_prompts, ha, hl, hne, ih2]
        · simp [extract_prompts, ha, hl, ih2]
    · constructor
      · simp [extract_prompts, ha, ih1]
      · simp [extract_prompts, ha, ih2]

/-! ### Determinism up to the timestamp (claim C9) -/

/-- C9: two invocations of the pipeline on the same unchanged document with a
stubbed deterministic completion response terminate identically, write the
same file, and issue the same completion requests up to the embedded
timestamp — in particular the histogram, the classification counts and the
two prompt sequences embedded in the requests coincide across the runs, the
timestamp being the only field that can differ. -/
theorem C9_determinism (doc : JObj) (path model k ts1 ts2 text : String) :
    (summarize_workflow (.ok doc) path model (some k)
        (fun _ => Outcome.success text) ts1).result
      = (summarize_workflow (.ok doc) path model (some k)
          (fun _ => Outcome.success text) ts2).result
    ∧ (summarize_workflow (.ok doc) path model (some k)
        (fun _ => Outcome.success text) ts1).written
      = (summarize_workflow (.ok doc) path model (some k)
          (fun _ => Outcome.success text) ts2).written
    ∧ ((summarize_workflow (.ok doc) path model (some k)
        (fun _ => Outcome.success text) ts1).attempts.map
          (fun r => { r with content := r.content.drop_ts }))
      = ((summarize_workflow (.ok doc) path model (some k)
          (fun _ => Outcome.success text) ts2).attempts.map
            (fun r => { r with content := r.content.drop_ts }))
    ∧ ((summarize_workflow (.ok doc) path model (some k)
        (fun _ => Outcome.success text) ts1).attempts.map
          (fun r => r.content.hist))
      = ((summarize_workflow (.ok doc) path model (some k)
          (fun _ => Outcome.success text) ts2).attempts.map
            (fun r => r.content.hist)) :=
  ⟨rfl, rfl, rfl, rfl⟩

/-! ### Fallback protocol (claim C1) -/

/-- Helper bound: the fallback payload's node list never exceeds 20 nodes. -/
theorem payload_nodes_fallback_le (doc : JObj) (ts : String) :
    (payload_nodes (fallback_request doc ts)).length ≤ 20 := by
  show ((nodesOf (doc_used doc)).take
      (min 20 (nodesOf (doc_used doc)).length)).length ≤ 20
  calc ((nodesOf (doc_used doc)).take
        (min 20 (nodesOf (doc_used doc)).length)).length
      ≤ min 20 (nodesOf (doc_used doc)).length := List.length_take_le _ _
    _ ≤ 20 := Nat.min_le_left _ _

/-- C1: whenever the primary attempt fails and the requested model is not the
fallback model, exactly one fallback attempt follows, against the fixed model
`"gpt-3.5-turbo-16k"`, with a payload whose node list holds at most 20
entries; if that attempt also fails the run returns a string containing both
the word `"fallback"` and the fallback's own failure message and writes no
file; and when the requested model already is the fallback model the run
stops after the primary attempt, returning the primary error text with no
file written. -/
theorem C1_fallback_protocol (doc : JObj) (path model k ts e : String)
    (complete : ChatRequest → Outcome)
    (hp : complete (primary_request doc model ts) = Outcome.failure e) :
    (model ≠ "gpt-3.5-turbo-16k" →
      (summarize_workflow (.ok doc) path model (some k) complete ts).attempts
          = [primary_request doc model ts, fallback_request doc ts]
        ∧ (fallback_request doc ts).model = "gpt-3.5-turbo-16k"
        ∧ (payload_nodes (fallback_request doc ts)).length ≤ 20
        ∧ (∀ fe, complete (fallback_request doc ts) = Outcome.failure fe →
            (summarize_workflow (.ok doc) path model (some k) complete ts).result
                = PyResult.returned ("Error with fallback model: " ++ fe)
              ∧ py_in "fallback" ("Error with fallback model: " ++ fe) = true
              ∧ py_in fe ("Error with fallback model: " ++ fe) = true
              ∧ (summarize_workflow (.ok doc) path model (some k) complete ts).written
                  = none))
    ∧ (model = "gpt-3.5-turbo-16k" →
        (summarize_workflow (.ok doc) path model (some k) complete ts).attempts
            = [primary_request doc model ts]
          ∧ (summarize_workflow (.ok doc) path model (some k) complete ts).result
              = PyResult.returned ("Error calling OpenAI API: " ++ e)
          ∧ (summarize_workflow (.ok doc) path model (some k) complete ts).written
              = none) := by
  constructor
  · intro hm
    have hrun : summarize_workflow (.ok doc) path model (some k) complete ts
        = (match complete (fallback_request doc ts) with
           | .success summary =>
             { result := .returned summary,
               written := some (output_path path, summary),
               attempts := [primary_request doc model ts, fallback_request doc ts] }
           | .failure fe =>
             { result := .returned ("Error with fallback model: " ++ fe),
               written := none,
               attempts := [primary_request doc model ts, fallback_request doc ts] }) := by
      simp only [summarize_workflow]
      rw [hp]
      simp [hm]
    refine ⟨?_, rfl, payload_nodes_fallback_le doc ts, ?_⟩
    · rw [hrun]
      cases complete (fallback_request doc ts) <;> rfl
    · intro fe hf
      rw [hrun, hf]
      refine ⟨rfl, ?_, ?_, rfl⟩
      · exact py_in_append_left _ _ _ (by decide)
      · exact py_in_append_right _ _ _ (py_in_self fe)
  · intro hm
    subst hm
    have hrun : summarize_workflow (.ok doc) path "gpt-3.5-turbo-16k" (some k) complete ts
        = { result := .returned ("Error calling OpenAI API: " ++ e),
            written := none,
            attempts := [primary_request doc "gpt-3.5-turbo-16k" ts] } := by
      simp only [summarize_workflow]
      rw [hp]
      simp
    rw [hrun]
    exact ⟨rfl, rfl, rfl⟩

/-- A completion stub that fails every call, tagging the failing model. -/
def fail_complete : ChatRequest → Outcome :=
  fun r => Outcome.failure ("boom-" ++ r.model)

/-- A completion stub that succeeds on every call with a fixed text. -/
def ok_complete : ChatRequest → Outcome :=
  fun _ => Outcome.success "OK SUMMARY"

/-- Demo document: one agent node and one plain node. -/
def demo_doc : JObj :=
  [("name", J.s "Demo"),
   ("nodes", J.a
     [J.o [("type", J.s "openAiAgent"),
           ("parameters", J.o [("systemPrompt",
              J.s "You are a helpful workflow assistant.")])],
      J.o [("type", J.s "n8n-nodes-base.httpRequest"),
           ("parameters", J.o [])]]),
   ("pinData", J.o [])]

/-- Witness for C1 at a concrete run in which both attempts fail. -/
theorem C1_fallback_protocol_witness :
    (summarize_workflow (.ok demo_doc) "wf.json" "gpt-4o" (some "sk")
        fail_complete "2026-01-01 00:00:00").attempts
      = [primary_request demo_doc "gpt-4o" "2026-01-01 00:00:00",
         fallback_request demo_doc "2026-01-01 00:00:00"]
    ∧ (payload_nodes (fallback_request demo_doc "2026-01-01 00:00:00")).length ≤ 20
    ∧ (summarize_workflow (.ok demo_doc) "wf.json" "gpt-4o" (some "sk")
        fail_complete "2026-01-01 00:00:00").result
      = PyResult.returned ("Error with fallback model: " ++ "boom-gpt-3.5-turbo-16k")
    ∧ (summarize_workflow (.ok demo_doc) "wf.json" "gpt-4o" (some "sk")
        fail_complete "2026-01-01 00:00:00").written = none := by
  have h := C1_fallback_protocol demo_doc "wf.json" "gpt-4o" "sk"
    "2026-01-01 00:00:00" "boom-gpt-4o" fail_complete rfl
  have h1 := h.1 (by decide)
  exact ⟨h1.1, h1.2.2.1, (h1.2.2.2 "boom-gpt-3.5-turbo-16k" rfl).1,
    (h1.2.2.2 "boom-gpt-3.5-turbo-16k" rfl).2.2.2⟩

/-! ### The reduction's frame (claim C5) -/

/-- C5: the reduction removes exactly the four keys `pinData`, `connections`,
`settings`, `staticData` when present; every other top-level key except the
replaced `nodes` list keeps its original value; `nodes` holds exactly the
reduced nodes; each reduced node consists of exactly the fields `name`,
`type`, `parameters` and `position`; and the reduced parameters hold exactly
the whitelist keys that occur in the original parameters, with their
original values. -/
theorem C5_reduction_frame (doc : JObj) :
    (∀ key, key ∈ keys_to_remove → jget (simplify_workflow doc) key = none)
    ∧ (∀ key, key ∉ keys_to_remove → key ≠ "nodes" →
        jget (simplify_workflow doc) key = jget doc key)
    ∧ jget (simplify_workflow doc) "nodes"
        = some (J.a ((nodesOf doc).map simplify_node))
    ∧ (∀ n, simplify_node n =
        J.o [("name", (node_get n "name").getD (J.s "")),
             ("type", (node_get n "type").getD (J.s "")),
             ("parameters", J.o (filter_params (node_params n))),
             ("position", (node_get n "position").getD (J.a []))])
    ∧ (∀ params key, jget (filter_params params) key =
        if key ∈ important_params then jget params key else none) := by
  refine ⟨?_, ?_, jget_simplify_nodes doc, fun n => rfl,
    fun params key => jget_filter_params params key⟩
  · intro key hk
    unfold simplify_workflow
    rw [jget_removeKeys]
    simp [hk]
  · intro key hk hn
    unfold simplify_workflow
    rw [jget_removeKeys, jget_setKey]
    simp [hk, hn]

/-- Witness for C5 at the demo document: `pinData` disappears, `name` keeps
its value, and the whitelisted `systemPrompt` parameter survives into the
reduced first node while nothing else of the parameters does. -/
theorem C5_reduction_frame_witness :
    jget (simplify_workflow demo_doc) "pinData" = none
    ∧ jget (simplify_workflow demo_doc) "name" = some (J.s "Demo")
    ∧ jget (filter_params
        [("systemPrompt", J.s "You are a helpful workflow assistant."),
         ("other", J.i 1)]) "systemPrompt"
      = some (J.s "You are a helpful workflow assistant.")
    ∧ jget (filter_params
        [("systemPrompt", J.s "You are a helpful workflow assistant."),
         ("other", J.i 1)]) "other" = none := by
  have h := C5_reduction_frame demo_doc
  refine ⟨h.1 "pinData" (by decide), ?_, ?_, ?_⟩
  · rw [h.2.1 "name" (by decide) (by decide)]
    rfl
  · rw [(C5_reduction_frame demo_doc).2.2.2.2
      [("systemPrompt", J.s "You are a helpful workflow assistant."),
       ("other", J.i 1)] "systemPrompt"]
    rfl
  · rw [(C5_reduction_frame demo_doc).2.2.2.2
      [("systemPrompt", J.s "You are a helpful workflow assistant."),
       ("other", J.i 1)] "other"]
    simp [important_params]

/-! ### Size-reduction threshold (claim C2) -/

theorem escChar_a : escChar 'a' = ['a'] := by decide

theorem escList_name : escList ("name".data) = "name".data := by decide

theorem escList_replicate_a (n : Nat) :
    escList (List.replicate n 'a') = List.replicate n 'a' := by
  induction n with
  | zero => rfl
  | succ m ih => simp [List.replicate_succ, escList, ih, escChar_a]

/-- Boundary document: its serialization `{"name": "aaa…a"}` has exactly
48000 characters, so the estimated token count is exactly 12000. -/
def c2_doc : JObj := [("name", J.s (String.mk (List.replicate 47988 'a')))]

theorem dumpsL_name_repl_length (n : Nat) :
    (dumpsL (J.o [("name", J.s (String.mk (List.replicate n 'a')))])).length
      = n + 12 := by
  have h4 : ("name".data).length = 4 := by decide
  simp only [dumpsL, dumpsObjL, dstr]
  rw [escList_name, escList_replicate_a]
  simp only [List.length_cons, List.length_append, List.length_replicate,
    List.length_nil, h4]
  omega

theorem c2_doc_length : (dumpsL (J.o c2_doc)).length = 48000 := by
  show (dumpsL (J.o [("name", J.s (String.mk (List.replicate 47988 'a')))])).length
      = 48000
  rw [dumpsL_name_repl_length]

theorem c2_doc_est : estimated_tokens c2_doc = 12000 := by
  rw [estimated_tokens]
  rw [c2_doc_length]

theorem c2_doc_used : doc_used c2_doc = c2_doc := by
  rw [doc_used]
  simp only [c2_doc_est]
  simp

/-- Counterexample to C2: this document's estimated token count is exactly
12000 — at the threshold, and its serialization (48000 characters) is at the
48000-character boundary — yet the payload handed to the prompt builder is
the document unchanged, not the reduced document (the two differ: the
reduced one holds a `"nodes"` key the original lacks). -/
theorem C2_boundary_counterexample :
    estimated_tokens c2_doc = 12000
    ∧ ((summarize_workflow (.ok c2_doc) "wf.json" "gpt-4o" (some "sk")
          ok_complete "ts").attempts.map (fun r => r.content.payload))
        = [J.o c2_doc]
    ∧ jget (simplify_workflow c2_doc) "nodes" = some (J.a [])
    ∧ jget c2_doc "nodes" = none := by
  refine ⟨c2_doc_est, ?_, ?_, rfl⟩
  · have hrun : (summarize_workflow (.ok c2_doc) "wf.json" "gpt-4o" (some "sk")
        ok_complete "ts").attempts = [primary_request c2_doc "gpt-4o" "ts"] := rfl
    rw [hrun]
    have hpay : (primary_request c2_doc "gpt-4o" "ts").content.payload
        = J.o (doc_used c2_doc) := rfl
    simp only [List.map_cons, List.map_nil, hpay, c2_doc_used]
  · rw [jget_simplify_nodes]
    rfl

/-- C2 (amended): the payload handed to the completion call is the reduced
document exactly when the estimate is STRICTLY above 12000 (serialization of
at least 48004 characters); an estimate of 12000 or below — which includes
every serialization up to 48003 characters, hence everything at or just over
the 48000-character boundary up to that point — passes the document through
unchanged. -/
theorem C2_threshold_amended (doc : JObj) (path model k ts : String)
    (complete : ChatRequest → Outcome) :
    ((summarize_workflow (.ok doc) path model (some k) complete ts).attempts.head?).map
        (fun r => r.content.payload) = some (J.o (doc_used doc))
    ∧ (estimated_tokens doc ≤ 12000 → doc_used doc = doc)
    ∧ (12000 < estimated_tokens doc → doc_used doc = simplify_workflow doc) := by
  refine ⟨?_, ?_, ?_⟩
  · simp only [summarize_workflow]
    cases hc : complete (primary_request doc model ts) with
    | success t => rfl
    | failure e =>
      by_cases hm : model = "gpt-3.5-turbo-16k"
      · simp [hm]
        rfl
      · simp only [hm, if_false]
        cases complete (fallback_request doc ts) <;> rfl
  · intro h
    unfold doc_used
    rw [if_neg (by omega)]
  · intro h
    unfold doc_used
    rw [if_pos h]

set_option maxRecDepth 8192 in
/-- Witness for C2 (amended): the demo document is far below the threshold
and passes through unchanged into the primary request. -/
theorem C2_threshold_amended_witness :
    ((summarize_workflow (.ok demo_doc) "wf.json" "gpt-4o" (some "sk")
        ok_complete "ts").attempts.head?).map (fun r => r.content.payload)
      = some (J.o (doc_used demo_doc))
    ∧ doc_used demo_doc = demo_doc := by
  have h := C2_threshold_amended demo_doc "wf.json" "gpt-4o" "sk" "ts" ok_complete
  exact ⟨h.1, h.2.1 (by decide)⟩

/-! ### Result writer (claim C7) -/

/-- C7 (amended): for every successful invocation, whichever attempt produced
the summary, the run writes the model's response text, exactly and
unmodified, to the file `<input-stem>_summary.md` — a path with no directory
part, resolved against the process working directory rather than the input
file's directory — and returns that same text. -/
theorem C7_writer_amended (doc : JObj) (path model k ts text : String)
    (complete : ChatRequest → Outcome) :
    (complete (primary_request doc model ts) = Outcome.success text →
      (summarize_workflow (.ok doc) path model (some k) complete ts).written
          = some (path_stem path ++ "_summary.md", text)
        ∧ (summarize_workflow (.ok doc) path model (some k) complete ts).result
          = PyResult.returned text)
    ∧ (∀ e, complete (primary_request doc model ts) = Outcome.failure e →
        model ≠ "gpt-3.5-turbo-16k" →
        complete (fallback_request doc ts) = Outcome.success text →
        (summarize_workflow (.ok doc) path model (some k) complete ts).written
            = some (path_stem path ++ "_summary.md", text)
          ∧ (summarize_workflow (.ok doc) path model (some k) complete ts).result
            = PyResult.returned text) := by
  constructor
  · intro hp
    simp only [summarize_workflow]
    rw [hp]
    exact ⟨rfl, rfl⟩
  · intro e hp hm hf
    have hrun : summarize_workflow (.ok doc) path model (some k) complete ts
        = { result := .returned text,
            written := some (output_path path, text),
            attempts := [primary_request doc model ts, fallback_request doc ts] } := by
      simp only [summarize_workflow]
      rw [hp]
      simp only [hm, if_false]
      rw [hf]
    rw [hrun]
    exact ⟨rfl, rfl⟩

/-- Counterexample to C7's "sibling" part: for the input
`workflows/demo.json` the summary is written to `demo_summary.md`, whose
directory is the working directory (`.`), not the input's directory
`workflows` — so the written file is not a sibling of the input file. -/
theorem C7_output_location_counterexample :
    (summarize_workflow (.ok demo_doc) "workflows/demo.json" "gpt-4o"
        (some "sk") ok_complete "ts").written
      = some ("demo_summary.md", "OK SUMMARY")
    ∧ parent_dir "demo_summary.md" = "."
    ∧ parent_dir "workflows/demo.json" = "workflows"
    ∧ parent_dir "demo_summary.md" ≠ parent_dir "workflows/demo.json" := by
  exact ⟨rfl, by decide, by decide, by decide⟩

/-- Witness for C7 (amended), on the fallback-success path: the primary
attempt fails, the fallback succeeds, and the fallback's text is written to
`<stem>_summary.md` and returned. -/
def c7_complete : ChatRequest → Outcome :=
  fun r => if r.model = "gpt-3.5-turbo-16k"
           then Outcome.success "FALLBACK SUMMARY"
           else Outcome.failure "boom"

set_option maxRecDepth 8192 in
/-- Witness for C7 (amended): concrete run of its fallback-success branch. -/
theorem C7_writer_amended_witness :
    (summarize_workflow (.ok demo_doc) "workflows/demo.json" "gpt-4o"
        (some "sk") c7_complete "ts").written
      = some (path_stem "workflows/demo.json" ++ "_summary.md", "FALLBACK SUMMARY")
    ∧ (summarize_workflow (.ok demo_doc) "workflows/demo.json" "gpt-4o"
        (some "sk") c7_complete "ts").result
      = PyResult.returned "FALLBACK SUMMARY" :=
  (C7_writer_amended demo_doc "workflows/demo.json" "gpt-4o" "sk" "ts"
      "FALLBACK SUMMARY" c7_complete).2
    "boom" rfl (by decide) rfl

/-! ### Fallback payload nodes (claim C6) -/

/-- A single node carrying a parameter outside the whitelist. -/
def c6_node : J :=
  J.o [("name", J.s "n"), ("type", J.s "t"),
       ("parameters", J.o [("credentials", J.s "secret")]),
       ("position", J.a [])]

/-- A document far below the size threshold, so reduction never triggers. -/
def c6_doc : JObj := [("nodes", J.a [c6_node])]

set_option maxRecDepth 8192 in
/-- Counterexample to C6: the size branch is not triggered here, the primary
attempt fails with a non-fallback model, and the node embedded in the
fallback payload is the original node — its parameters still carry the
non-whitelisted `credentials` key, so it is not reduced to the
name/type/parameters/position form with whitelisted parameters. -/
theorem C6_fallback_nodes_counterexample :
    (summarize_workflow (.ok c6_doc) "wf.json" "gpt-4o" (some "sk")
        fail_complete "ts").attempts
      = [primary_request c6_doc "gpt-4o" "ts", fallback_request c6_doc "ts"]
    ∧ payload_nodes (fallback_request c6_doc "ts") = [c6_node]
    ∧ jget (node_params c6_node) "credentials" = some (J.s "secret")
    ∧ "credentials" ∉ important_params
    ∧ jget (node_params (simplify_node c6_node)) "credentials" = none := by
  refine ⟨rfl, rfl, rfl, by decide, rfl⟩

/-- C6 (amended): when the primary attempt fails with a non-fallback model,
the fallback payload's node list is the first `min(20, length)` entries of
the node list of the document used for the primary attempt: the reduced
nodes (name/type/whitelisted-parameters/position) exactly when the
size-reduction branch was triggered, and the original nodes unchanged
otherwise. -/
theorem C6_fallback_nodes_amended (doc : JObj) (path model k ts e : String)
    (complete : ChatRequest → Outcome)
    (hm : model ≠ "gpt-3.5-turbo-16k")
    (hp : complete (primary_request doc model ts) = Outcome.failure e) :
    payload_nodes (fallback_request doc ts)
      = (nodesOf (doc_used doc)).take (min 20 (nodesOf (doc_used doc)).length)
    ∧ (12000 < estimated_tokens doc →
        payload_nodes (fallback_request doc ts)
          = ((nodesOf doc).map simplify_node).take
              (min 20 ((nodesOf doc).map simplify_node).length))
    ∧ (estimated_tokens doc ≤ 12000 →
        payload_nodes (fallback_request doc ts)
          = (nodesOf doc).take (min 20 (nodesOf doc).length))
    ∧ (summarize_workflow (.ok doc) path model (some k) complete ts).attempts.drop 1
        = [fallback_request doc ts] := by
  have hbase : payload_nodes (fallback_request doc ts)
      = (nodesOf (doc_used doc)).take (min 20 (nodesOf (doc_used doc)).length) := rfl
  refine ⟨hbase, ?_, ?_, ?_⟩
  · intro h
    have hred : doc_used doc = simplify_workflow doc := by
      rw [doc_used]
      exact if_pos h
    rw [hbase, hred, nodesOf_simplify_workflow]
  · intro h
    have hsame : doc_used doc = doc := by
      rw [doc_used]
      exact if_neg (by omega)
    rw [hbase, hsame]
  · have hrun : (summarize_workflow (.ok doc) path model (some k) complete ts).attempts
        = [primary_request doc model ts, fallback_request doc ts] := by
      simp only [summarize_workflow]
      rw [hp]
      simp only [hm, if_false]
      cases complete (fallback_request doc ts) <;> rfl
    rw [hrun]
    rfl

set_option maxRecDepth 8192 in
/-- Witness for C6 (amended) at the counterexample document: below the
threshold the fallback payload carries the original nodes. -/
theorem C6_fallback_nodes_amended_witness :
    payload_nodes (fallback_request c6_doc "ts")
      = (nodesOf c6_doc).take (min 20 (nodesOf c6_doc).length)
    ∧ (summarize_workflow (.ok c6_doc) "wf.json" "gpt-4o" (some "sk")
        fail_complete "ts").attempts.drop 1 = [fallback_request c6_doc "ts"] := by
  have h := C6_fallback_nodes_amended c6_doc "wf.json" "gpt-4o" "sk" "ts"
    "boom-gpt-4o" fail_complete (by decide) rfl
  exact ⟨h.2.2.1 (by decide), h.2.2.2⟩

/-! ### Error channels (claim C8) -/

/-- C8 (amended): errors are returned as plain strings rather than raised in
exactly three cases — the API-key variable being absent, the fallback
attempt's failure, and the primary attempt's failure when the requested
model already is the fallback model — while a load failure propagates as an
exception; in particular the absent credential yields a descriptive string
and never a crash. -/
theorem C8_error_channels_amended (doc : JObj) (path model k ts : String)
    (complete : ChatRequest → Outcome) :
    ((summarize_workflow (.ok doc) path model none complete ts).result
        = PyResult.returned "OPENAI_API_KEY environment variable not set"
      ∧ ((summarize_workflow (.ok doc) path model none complete ts).result).isRaised
          = false)
    ∧ (∀ e fe, complete (primary_request doc model ts) = Outcome.failure e →
        model ≠ "gpt-3.5-turbo-16k" →
        complete (fallback_request doc ts) = Outcome.failure fe →
        (summarize_workflow (.ok doc) path model (some k) complete ts).result
          = PyResult.returned ("Error with fallback model: " ++ fe))
    ∧ (∀ e, complete (primary_request doc "gpt-3.5-turbo-16k" ts)
          = Outcome.failure e →
        (summarize_workflow (.ok doc) path "gpt-3.5-turbo-16k" (some k)
            complete ts).result
          = PyResult.returned ("Error calling OpenAI API: " ++ e))
    ∧ (∀ le, summarize_workflow (.error le) path model (some k) complete ts
        = { result := PyResult.raised le, written := none, attempts := [] }) := by
  refine ⟨⟨rfl, rfl⟩, ?_, ?_, fun le => rfl⟩
  · intro e fe hp hm hf
    have hrun : summarize_workflow (.ok doc) path model (some k) complete ts
        = { result := .returned ("Error with fallback model: " ++ fe),
            written := none,
            attempts := [primary_request doc model ts, fallback_request doc ts] } := by
      simp only [summarize_workflow]
      rw [hp]
      simp only [hm, if_false]
      rw [hf]
    rw [hrun]
  · intro e hp
    have hrun : summarize_workflow (.ok doc) path "gpt-3.5-turbo-16k" (some k)
          complete ts
        = { result := .returned ("Error calling OpenAI API: " ++ e),
            written := none,
            attempts := [primary_request doc "gpt-3.5-turbo-16k" ts] } := by
      simp only [summarize_workflow]
      rw [hp]
      simp
    rw [hrun]

/-- Counterexample to C8's "exactly two cases": with the requested model
already the fallback model and the primary attempt failing, the run returns
the primary error text as a plain string — a third string-return case —
where the claim asserts every failure other than its two named cases
propagates as an exception. -/
theorem C8_string_return_counterexample :
    (summarize_workflow (.ok demo_doc) "wf.json" "gpt-3.5-turbo-16k" (some "sk")
        fail_complete "ts").result
      = PyResult.returned ("Error calling OpenAI API: " ++ "boom-gpt-3.5-turbo-16k")
    ∧ ((summarize_workflow (.ok demo_doc) "wf.json" "gpt-3.5-turbo-16k" (some "sk")
        fail_complete "ts").result).isRaised = false := by
  exact ⟨rfl, rfl⟩

/-- Witness for C8 (amended): the missing-credential string return and the
propagating load failure, at concrete inputs. -/
theorem C8_error_channels_amended_witness :
    (summarize_workflow (.ok demo_doc) "wf.json" "gpt-4o" none ok_complete
        "ts").result
      = PyResult.returned "OPENAI_API_KEY environment variable not set"
    ∧ summarize_workflow (.error "No such file or directory") "wf.json" "gpt-4o"
        (some "sk") ok_complete "ts"
      = { result := PyResult.raised "No such file or directory",
          written := none, attempts := [] } := by
  have h := C8_error_channels_amended demo_doc "wf.json" "gpt-4o" "sk" "ts"
    ok_complete
  exact ⟨h.1.1, h.2.2.2 "No such file or directory"⟩
